import Mathlib

/-!
Verification of the AirAware bounding-box resolution and daily-aggregation
pipeline.  The definitions below are a shallow embedding of the Python
sources:

* `src/agent_tools/bounding_box_extractor_tool.py` — bounding-box expansion;
* `src/agent_tools/air_quality_analysis_tool.py` — bbox axis reorder,
  per-site/per-day sensor-data fetch, daily aggregation, pipeline merge;
* `src/agent_tools/weather_tools.py` — daily weather summary;
* `src/agent_tools/input_parser_tool.py` — input validation.

Numeric values carried by readings are modelled as rationals, geographic
coordinates as reals (the code computes with a transcendental cosine).
-/

namespace AirAware

/-! ## Bounding-box expansion (`bounding_box_extractor_tool.py`) -/

/-- Python `math.radians x = x * pi / 180`. -/
noncomputable def radians (x : ℝ) : ℝ := x * (Real.pi / 180)

/-- `BoundingBoxExtractorTool._expand_bounding_box` (lines 34–46).
The Python signature carries a default `km_expansion=50`; every call site in
the repository passes the margin explicitly, so the default is dropped here.
Returns `[south, west, north, east]`. -/
noncomputable def expand_bounding_box (south_lat west_lon north_lat east_lon km_expansion : ℝ) :
    List ℝ :=
  let lat_offset := km_expansion / 111
  let lon_offset := km_expansion / (111 * Real.cos (radians ((south_lat + north_lat) / 2)))
  [south_lat - lat_offset,
   west_lon - lon_offset,
   north_lat + lat_offset,
   east_lon + lon_offset]

/-- The production invocation in `BoundingBoxExtractorTool._run` (line 66):
`self._expand_bounding_box(south_lat, west_lon, north_lat, east_lon, 15)`. -/
noncomputable def run_expand_production (south_lat west_lon north_lat east_lon : ℝ) : List ℝ :=
  expand_bounding_box south_lat west_lon north_lat east_lon 15

/-- Spec-side formula for the expanded box, written from the spec wording:
latitude offset `m / 111`, longitude offset
`m / (111 · cos(radians((s + n) / 2)))`, subtracted from south/west and added
to north/east. -/
noncomputable def spec_expanded_box (s w n e m : ℝ) : List ℝ :=
  [s - m / 111,
   w - m / (111 * Real.cos (radians ((s + n) / 2))),
   n + m / 111,
   e + m / (111 * Real.cos (radians ((s + n) / 2)))]

/-! ## Theorems about the expansion -/

/-- Claim C1: for every base bounding box `(s, w, n, e)` and margin `m` km, the
expansion returns `[s - m/111, w - d, n + m/111, e + d]` with
`d = m / (111 * cos(radians((s + n) / 2)))`, and the production geocoding path
invokes the expansion with margin `m = 15`. -/
theorem c1_expand_matches_spec (s w n e m : ℝ) :
    expand_bounding_box s w n e m = spec_expanded_box s w n e m ∧
    run_expand_production s w n e = expand_bounding_box s w n e 15 := by
  constructor <;> rfl

/-- Witness for `c1_expand_matches_spec` at a concrete box. -/
theorem c1_expand_matches_spec_witness :
    expand_bounding_box 20 70 30 80 15 = spec_expanded_box 20 70 30 80 15 ∧
    run_expand_production 20 70 30 80 = expand_bounding_box 20 70 30 80 15 :=
  c1_expand_matches_spec 20 70 30 80 15

/-- Claim C9 as stated is false: at a box with mean latitude 180°, where
`cos` is negative, the longitude offset is negative and the expanded box has
west ≥ east although `south ≤ north`, `west ≤ east`, and the margin is
positive. -/
theorem c9_counterexample :
    (180 : ℝ) ≤ 180 ∧ (0 : ℝ) ≤ 0 ∧ (0 : ℝ) < 15 ∧
    ¬ ((expand_bounding_box 180 0 180 0 15).getD 1 0
        < (expand_bounding_box 180 0 180 0 15).getD 3 0) := by
  have hrad : radians ((180 + 180) / 2) = Real.pi := by
    unfold radians; ring
  refine ⟨le_refl _, le_refl _, by norm_num, ?_⟩
  simp only [expand_bounding_box, hrad, Real.cos_pi, List.getD]
  norm_num

/-- Claim C9, amended: for every base box with `south ≤ north`, `west ≤ east`,
a positive margin, and mean latitude `(s + n) / 2` strictly between −90° and
90° (so the cosine in the longitude scale factor is positive), the expanded
box satisfies `south' < north'` and `west' < east'`.  The original claim
omitted the mean-latitude restriction. -/
theorem c9_amended_expansion_invariant (s w n e m : ℝ)
    (hsn : s ≤ n) (hwe : w ≤ e) (hm : 0 < m)
    (hlo : -90 < (s + n) / 2) (hhi : (s + n) / 2 < 90) :
    (expand_bounding_box s w n e m).getD 0 0 < (expand_bounding_box s w n e m).getD 2 0 ∧
    (expand_bounding_box s w n e m).getD 1 0 < (expand_bounding_box s w n e m).getD 3 0 := by
  have hpi : (0 : ℝ) < Real.pi := Real.pi_pos
  have hcos : 0 < Real.cos (radians ((s + n) / 2)) := by
    apply Real.cos_pos_of_mem_Ioo
    constructor
    · have : (-90 : ℝ) * (Real.pi / 180) < (s + n) / 2 * (Real.pi / 180) := by
        apply mul_lt_mul_of_pos_right hlo
        positivity
      unfold radians
      nlinarith
    · have : (s + n) / 2 * (Real.pi / 180) < 90 * (Real.pi / 180) := by
        apply mul_lt_mul_of_pos_right hhi
        positivity
      unfold radians
      nlinarith
  have hlat : 0 < m / 111 := by positivity
  have hlon : 0 < m / (111 * Real.cos (radians ((s + n) / 2))) := by
    apply div_pos hm
    have : (0 : ℝ) < 111 := by norm_num
    exact mul_pos this hcos
  simp only [expand_bounding_box, List.getD_cons_zero, List.getD_cons_succ]
  exact ⟨by linarith, by linarith⟩

/-- Witness for `c9_amended_expansion_invariant` at the origin box with the
production margin of 15 km. -/
theorem c9_amended_expansion_invariant_witness :
    (expand_bounding_box 0 0 0 0 15).getD 0 0 < (expand_bounding_box 0 0 0 0 15).getD 2 0 ∧
    (expand_bounding_box 0 0 0 0 15).getD 1 0 < (expand_bounding_box 0 0 0 0 15).getD 3 0 :=
  c9_amended_expansion_invariant 0 0 0 0 15 (le_refl 0) (le_refl 0) (by norm_num)
    (by norm_num) (by norm_num)

/-! ## Bounding-box axis reorder for the site registry
(`air_quality_analysis_tool.py`, `AirQualityAnalysisTool._run`, line 166) -/

/-- `bbox_openaq_format = [bbox[1], bbox[0], bbox[3], bbox[2]]`: the internal
`[south, west, north, east]` box reordered into the OpenAQ query order
`[west, south, east, north]`.  Python list indexing on the four-element box is
modelled with `getD`. -/
def bbox_openaq_format (bbox : List ℚ) : List ℚ :=
  [bbox.getD 1 0, bbox.getD 0 0, bbox.getD 3 0, bbox.getD 2 0]

/-- Claim C3: for every internal bounding box `[south, west, north, east]`,
the site-discovery query box is the reorder `[b[1], b[0], b[3], b[2]]`, i.e.
`[west, south, east, north]`. -/
theorem c3_bbox_reorder (s w n e : ℚ) :
    bbox_openaq_format [s, w, n, e] = [w, s, e, n] := rfl

/-! ## Raw readings and daily aggregation
(`air_quality_analysis_tool.py`, `aggregate_data`, lines 137–160) -/

/-- A timestamp, split into the calendar day (as an abstract day ordinal) and
the time of day.  `pd.Grouper(freq='D')` keeps only the `day` component. -/
structure Timestamp where
  day : Nat
  timeOfDay : Nat
deriving DecidableEq

/-- One row of the raw sensor frame: columns `datetime`, `parameter`,
`value`, `units` (the ones `aggregate_data` touches). -/
structure RawReading where
  datetime : Timestamp
  parameter : String
  value : ℚ
  units : String
deriving DecidableEq

/-- One row of the aggregated daily frame: columns `parameter`, `date`,
`value`, `units`. -/
structure DailyRow where
  parameter : String
  date : Nat
  value : ℚ
  units : String
deriving DecidableEq

/-- The parameter filter `if parameters: df = df[df['parameter'].isin(parameters)]`.
Python truthiness: `None` and the empty list both skip the filter. -/
def filterParams (df : List RawReading) (parameters : Option (List String)) :
    List RawReading :=
  match parameters with
  | none => df
  | some ps => if ps.isEmpty then df else df.filter (fun r => ps.contains r.parameter)

/-- The groupby key of a reading: `(parameter, calendar day of datetime)`. -/
def aggKey (r : RawReading) : String × Nat :=
  (r.parameter, r.datetime.day)

/-- The group of readings sharing one groupby key. -/
def groupOf (df : List RawReading) (k : String × Nat) : List RawReading :=
  df.filter (fun r => decide (aggKey r = k))

/-- `value=('value', 'mean')`: arithmetic mean of the group's values. -/
def meanValue (g : List RawReading) : ℚ :=
  (g.map RawReading.value).sum / g.length

/-- `units=('units', 'first')`: the unit of the first reading of the group in
frame order. -/
def firstUnit (g : List RawReading) : String :=
  (g.head?.map RawReading.units).getD ""

/-- The aggregated row emitted for one groupby key. -/
def mkRow (filtered : List RawReading) (k : String × Nat) : DailyRow :=
  { parameter := k.1
    date := k.2
    value := meanValue (groupOf filtered k)
    units := firstUnit (groupOf filtered k) }

/-- `aggregate_data`: filter to the allow-listed parameters, group by
`(parameter, day)`, and emit one row per group with the mean value and the
first-seen unit.  `List.dedup` enumerates each distinct key once; pandas
additionally sorts the keys, which no claim depends on.  The `.dropna()` is
vacuous in this model: groups are non-empty by construction and values are
total rationals. -/
def aggregate_data (df : List RawReading) (parameters : Option (List String)) :
    List DailyRow :=
  let filtered := filterParams df parameters
  ((filtered.map aggKey).dedup).map (mkRow filtered)

/-- A row of the merged output frame, after `aggregated_daily_data["location"]
= location`. -/
structure LocRow where
  parameter : String
  date : Nat
  value : ℚ
  units : String
  location : String
deriving DecidableEq

/-- Tag every aggregated row with the location name (line 176). -/
def tagLocation (rows : List DailyRow) (loc : String) : List LocRow :=
  rows.map (fun r => ⟨r.parameter, r.date, r.value, r.units, loc⟩)

/-- The main workflow of `AirQualityAnalysisTool._run` (lines 162–187), at the
row level.  Each requested `(bounding box, location)` pair is abstracted by
the raw-reading frame its fetch produced; an empty frame is skipped
(`if not consolidated_df.empty`), a non-empty one is aggregated, tagged with
the location, and appended; `pd.concat` concatenates the blocks in order. -/
def runPipeline (inputs : List (List RawReading × String))
    (params : Option (List String)) : List LocRow :=
  match inputs with
  | [] => []
  | (df, loc) :: rest =>
      (if df.isEmpty then [] else tagLocation (aggregate_data df params) loc)
        ++ runPipeline rest params

/-! ## Helper lemmas about filters over maps and duplicate-free lists -/

/-- Filtering the image of a map is mapping the filter of the preimages. -/
theorem filter_of_map {α β : Type} (f : α → β) (p : β → Bool) :
    ∀ l : List α, (l.map f).filter p = (l.filter (fun a => p (f a))).map f
  | [] => rfl
  | a :: t => by
    by_cases h : p (f a) <;>
      simp [List.filter_cons, h, filter_of_map f p t]

/-- In a list whose image under `f` is duplicate-free, the readings sharing
the key of a member `a` are exactly `[a]`. -/
theorem filter_key_eq_singleton {α β : Type} [DecidableEq β] (f : α → β) :
    ∀ (l : List α), (l.map f).Nodup → ∀ a ∈ l,
      l.filter (fun x => decide (f x = f a)) = [a]
  | [], _, a, ha => absurd ha (List.not_mem_nil a)
  | b :: t, hn, a, ha => by
    have hn' : (t.map f).Nodup := (List.nodup_cons.mp (by simpa using hn)).2
    have hbt : f b ∉ t.map f := (List.nodup_cons.mp (by simpa using hn)).1
    rcases List.mem_cons.mp ha with h | h
    · subst h
      have ht : t.filter (fun x => decide (f x = f a)) = [] := by
        rw [List.filter_eq_nil_iff]
        simp only [decide_eq_true_eq]
        intro x hx hfx
        exact hbt (hfx ▸ List.mem_map_of_mem f hx)
      simp [List.filter_cons, ht]
    · have hba : ¬ (f b = f a) := by
        intro hba
        exact hbt (hba ▸ List.mem_map_of_mem f h)
      simp [List.filter_cons, hba, filter_key_eq_singleton f t hn' a h]

/-- In a duplicate-free list, filtering for equality with a member yields
exactly that member. -/
theorem nodup_filter_eq_singleton {α : Type} [DecidableEq α] (l : List α) (a : α)
    (hn : l.Nodup) (ha : a ∈ l) : l.filter (fun x => decide (x = a)) = [a] := by
  have h := filter_key_eq_singleton (fun x : α => x) l (by simpa using hn) a ha
  simpa using h

/-! ## Theorems about the aggregation -/

/-- Claim C2: aggregation groups readings by `(parameter, calendar day)` and,
for each key present in the input, produces exactly one row whose value is the
arithmetic mean of the group's values and whose unit is the unit of the
first-seen reading of the group — with no unit-consistency check: the other
readings' units do not enter the result at all. -/
theorem c2_aggregate_mean_and_first_unit (rs : List RawReading) (p : String) (d : Nat)
    (h : (p, d) ∈ rs.map aggKey) :
    (aggregate_data rs none).filter
        (fun row => decide (row.parameter = p ∧ row.date = d)) =
      [{ parameter := p
         date := d
         value := ((rs.filter (fun r => decide (r.parameter = p ∧ r.datetime.day = d))).map
                     RawReading.value).sum /
                  ((rs.filter (fun r => decide (r.parameter = p ∧ r.datetime.day = d))).length : ℚ)
         units := (((rs.filter (fun r => decide (r.parameter = p ∧ r.datetime.day = d))).head?).map
                     RawReading.units).getD "" }] := by
  have hgroup : groupOf rs (p, d) =
      rs.filter (fun r => decide (r.parameter = p ∧ r.datetime.day = d)) := by
    apply List.filter_congr
    intro r _
    simp [aggKey, Prod.ext_iff]
  show (((rs.map aggKey).dedup).map (mkRow rs)).filter _ = _
  rw [filter_of_map]
  have hq : ∀ k ∈ (rs.map aggKey).dedup,
      (decide ((mkRow rs k).parameter = p ∧ (mkRow rs k).date = d)) =
        decide (k = (p, d)) := by
    intro k _
    simp [mkRow, Prod.ext_iff]
  rw [List.filter_congr hq,
      nodup_filter_eq_singleton _ _ ((rs.map aggKey).nodup_dedup) (List.mem_dedup.mpr h)]
  simp [mkRow, meanValue, firstUnit, hgroup]

/-- Concrete scenario witnessing `c2_aggregate_mean_and_first_unit`: two pm25
readings with values 10 and 20 on the same day. -/
def c2Input : List RawReading :=
  [{ datetime := ⟨20230101, 0⟩, parameter := "pm25", value := 10, units := "µg/m³" },
   { datetime := ⟨20230101, 1⟩, parameter := "pm25", value := 20, units := "µg/m³" }]

/-- Witness for `c2_aggregate_mean_and_first_unit`: the scenario of two pm25
readings 10 and 20 on 2023-01-01 yields exactly one row with value 15 and the
first reading's unit. -/
theorem c2_aggregate_mean_and_first_unit_witness :
    (aggregate_data c2Input none).filter
        (fun row => decide (row.parameter = "pm25" ∧ row.date = 20230101)) =
      [{ parameter := "pm25", date := 20230101, value := 15, units := "µg/m³" }] := by
  rw [c2_aggregate_mean_and_first_unit c2Input "pm25" 20230101 (by decide)]
  norm_num [c2Input, List.filter]

/-- Claim C7: aggregation is idempotent — on an input with at most one reading
per `(parameter, day)` key, every reading reappears as its own output row with
value and unit unchanged, and the output has exactly one row per reading. -/
theorem c7_aggregate_idempotent (rs : List RawReading)
    (h : (rs.map aggKey).Nodup) :
    (aggregate_data rs none).length = rs.length ∧
    ∀ r ∈ rs,
      ({ parameter := r.parameter, date := r.datetime.day,
         value := r.value, units := r.units } : DailyRow) ∈ aggregate_data rs none := by
  have hded : (rs.map aggKey).dedup = rs.map aggKey := List.dedup_eq_self.mpr h
  constructor
  · show (((rs.map aggKey).dedup).map (mkRow rs)).length = _
    rw [hded]
    simp
  · intro r hr
    have hg : groupOf rs (aggKey r) = [r] := filter_key_eq_singleton aggKey rs h r hr
    have hg' : groupOf rs (r.parameter, r.datetime.day) = [r] := by
      simpa [aggKey] using hg
    have hrow : mkRow rs (aggKey r) =
        { parameter := r.parameter, date := r.datetime.day,
          value := r.value, units := r.units } := by
      simp [mkRow, aggKey, hg', meanValue, firstUnit]
    show _ ∈ ((rs.map aggKey).dedup).map (mkRow rs)
    rw [hded, ← hrow]
    exact List.mem_map_of_mem (mkRow rs) (List.mem_map_of_mem aggKey hr)

/-- Concrete single-reading-per-day input for the idempotence witness. -/
def c7Input : List RawReading :=
  [{ datetime := ⟨20230101, 5⟩, parameter := "pm25", value := 10, units := "µg/m³" },
   { datetime := ⟨20230102, 7⟩, parameter := "pm25", value := 12, units := "µg/m³" }]

/-- Witness for `c7_aggregate_idempotent` on a two-day single-reading input. -/
theorem c7_aggregate_idempotent_witness :
    (aggregate_data c7Input none).length = c7Input.length ∧
    ({ parameter := "pm25", date := 20230101, value := 10, units := "µg/m³" } : DailyRow) ∈
      aggregate_data c7Input none := by
  refine ⟨(c7_aggregate_idempotent c7Input (by decide)).1, ?_⟩
  exact (c7_aggregate_idempotent c7Input (by decide)).2
    { datetime := ⟨20230101, 5⟩, parameter := "pm25", value := 10, units := "µg/m³" }
    (by simp [c7Input])

/-! ## Uniqueness of output triples (claim C6) -/

/-- The identifying triple of an output row: `(location, date, parameter)`. -/
def tripleOf (row : LocRow) : String × Nat × String :=
  (row.location, row.date, row.parameter)

/-- The triples of one tagged block are the dedup'd groupby keys, each paired
with the block's location. -/
theorem triples_tagged (df : List RawReading) (params : Option (List String))
    (loc : String) :
    (tagLocation (aggregate_data df params) loc).map tripleOf
      = (((filterParams df params).map aggKey).dedup).map (fun k => (loc, k.2, k.1)) := by
  unfold tagLocation aggregate_data
  rw [List.map_map, List.map_map]
  rfl

/-- Every triple produced by the head block of the pipeline carries the head
location. -/
theorem mem_block_location (df : List RawReading) (params : Option (List String))
    (loc : String) (t : String × Nat × String)
    (ht : t ∈ (if df.isEmpty then ([] : List LocRow)
               else tagLocation (aggregate_data df params) loc).map tripleOf) :
    t.1 = loc := by
  by_cases hdf : df.isEmpty
  · simp [hdf] at ht
  · rw [if_neg hdf, triples_tagged] at ht
    obtain ⟨k, -, rfl⟩ := List.mem_map.mp ht
    rfl

/-- Every triple produced by the pipeline carries one of the requested
location names. -/
theorem mem_triples_location :
    ∀ (inputs : List (List RawReading × String)) (params : Option (List String))
      (t : String × Nat × String),
      t ∈ (runPipeline inputs params).map tripleOf → t.1 ∈ inputs.map Prod.snd
  | [], _, t => by simp [runPipeline]
  | (df, loc) :: tl, params, t => by
    intro ht
    simp only [runPipeline, List.map_append, List.mem_append] at ht
    rcases ht with h | h
    · simp [mem_block_location df params loc t h]
    · simp [mem_triples_location tl params t h]

/-- Claim C6 as stated is false: repeating the same location name twice in the
input produces two identical `(location, date, parameter)` triples. -/
def c6DupReading : RawReading :=
  { datetime := ⟨20230101, 0⟩, parameter := "pm25", value := 10, units := "µg/m³" }

/-- Counterexample to claim C6: with the location "New Delhi, India" requested
twice over the same data, the output contains a duplicated triple. -/
theorem c6_counterexample :
    ¬ ((runPipeline [([c6DupReading], "New Delhi, India"),
                     ([c6DupReading], "New Delhi, India")] none).map tripleOf).Nodup := by
  have hblock :
      (runPipeline [([c6DupReading], "New Delhi, India"),
                    ([c6DupReading], "New Delhi, India")] none).map tripleOf
        = [("New Delhi, India", 20230101, "pm25"), ("New Delhi, India", 20230101, "pm25")] := by
    simp [runPipeline, List.map_append, triples_tagged, filterParams, aggKey, c6DupReading]
  rw [hblock]
  decide

/-- Claim C6, amended: when the requested location names are pairwise
distinct, the output rows have pairwise-distinct `(location, date, parameter)`
triples.  The original claim, quantified over every input, fails when a
location name is requested twice. -/
theorem c6_amended_unique_triples (inputs : List (List RawReading × String))
    (params : Option (List String)) (h : (inputs.map Prod.snd).Nodup) :
    ((runPipeline inputs params).map tripleOf).Nodup := by
  induction inputs with
  | nil => simp [runPipeline]
  | cons hd tl ih =>
    obtain ⟨df, loc⟩ := hd
    rw [List.map_cons] at h
    obtain ⟨hloc, htl⟩ := List.nodup_cons.mp h
    simp only [runPipeline, List.map_append]
    rw [List.nodup_append]
    refine ⟨?_, ih htl, ?_⟩
    · by_cases hdf : df.isEmpty
      · simp [hdf]
      · rw [if_neg hdf, triples_tagged]
        refine List.Nodup.map ?_ (List.nodup_dedup _)
        intro k1 k2 hk
        cases k1
        cases k2
        simpa [Prod.ext_iff, and_comm] using hk
    · intro t ht1 ht2
      have h1 : t.1 = loc := mem_block_location df params loc t ht1
      have h2 : t.1 ∈ tl.map Prod.snd := mem_triples_location tl params t ht2
      exact hloc (h1 ▸ h2)

/-- Witness for `c6_amended_unique_triples`: two distinct locations over the
same data give duplicate-free triples. -/
theorem c6_amended_unique_triples_witness :
    ((runPipeline [([c6DupReading], "Delhi"), ([c6DupReading], "Chennai")] none).map
        tripleOf).Nodup :=
  c6_amended_unique_triples [([c6DupReading], "Delhi"), ([c6DupReading], "Chennai")] none
    (by decide)

/-! ## Output column schema (claim C4)

`aggregate_data` builds its frame by `groupby` and
`.agg(value=('value', 'mean'), units=('units', 'first'))`, then adds a `date`
column and deletes `datetime`; `AirQualityAnalysisTool._run` then adds a
`location` column.  The empty fallback at line 187 is built with an explicit
column list.  The column names below transcribe those pandas operations. -/

/-- Columns of the frame returned by `aggregate_data`: after
`reset_index` the frame has `parameter`, `datetime`, `value`, `units`; the
`date` column is appended and `datetime` deleted. -/
def aggregate_data_columns : List String :=
  ["parameter", "value", "units", "date"]

/-- Columns after `aggregated_daily_data["location"] = location` (line 176). -/
def tagged_columns : List String :=
  aggregate_data_columns ++ ["location"]

/-- The explicit schema of the empty fallback frame (line 187):
`pd.DataFrame(columns=["date", "parameter", "unit", "value", "location"])`. -/
def empty_result_columns : List String :=
  ["date", "parameter", "unit", "value", "location"]

/-- Columns of the frame returned by `AirQualityAnalysisTool._run`:
`pd.concat` keeps the tagged columns when at least one location contributed a
(possibly empty) aggregated frame, i.e. when some fetched frame was non-empty;
otherwise the fallback schema is used. -/
def run_result_columns (inputs : List (List RawReading × String)) : List String :=
  if inputs.any (fun i => !i.1.isEmpty) then tagged_columns else empty_result_columns

/-- Claim C4 is contradicted by the code: on any input with data the returned
frame's columns are `parameter, value, units, date, location` — the unit
column is named `units`, not `unit` as in the empty fallback and in the
function's own docstring, so the five-column schema is not stable across the
two branches. -/
theorem c4_schema_bug :
    run_result_columns [([c6DupReading], "New Delhi, India")]
        = ["parameter", "value", "units", "date", "location"] ∧
    "unit" ∉ run_result_columns [([c6DupReading], "New Delhi, India")] ∧
    run_result_columns [] = ["date", "parameter", "unit", "value", "location"] ∧
    "units" ∉ run_result_columns [] := by
  refine ⟨rfl, ?_, rfl, ?_⟩ <;> decide

/-! ## Per-site/per-day sensor-data fetch
(`air_quality_analysis_tool.py`, `fetch_sensor_data`, lines 102–134)

The S3 interaction for one `(site, day)` retrieval unit is abstracted by an
oracle: the archive either lists matching objects whose download yields some
rows (`found`), lists no objects under the prefix (`absent` — the
`'Contents' not in response` branch, which records the site as failed), or the
interaction raises (`failed` — the `except` branch, which also records the
site).  The Python loop mutates `consolidated_df` and `failed_locations`;
the state is threaded explicitly here. -/

/-- Outcome of one `(site, day)` archive interaction. -/
inductive FetchOutcome where
  | found (rows : List RawReading)
  | absent
  | failed
deriving DecidableEq

/-- One iteration of the inner `for date in pd.date_range(...)` body. -/
def processDay (acc : List RawReading × List Nat) (locId : Nat) (r : FetchOutcome) :
    List RawReading × List Nat :=
  match r with
  | .found rows => (acc.1 ++ rows, acc.2)
  | .absent => (acc.1, acc.2 ++ [locId])
  | .failed => (acc.1, acc.2 ++ [locId])

/-- The inner loop over the days for one site. -/
def processLocation (f : Nat → Nat → FetchOutcome) (days : List Nat)
    (acc : List RawReading × List Nat) (locId : Nat) : List RawReading × List Nat :=
  days.foldl (fun a d => processDay a locId (f locId d)) acc

/-- The full loop state of `fetch_sensor_data`:
`(consolidated_df, failed_locations)`. -/
def fetchState (f : Nat → Nat → FetchOutcome) (locIds days : List Nat) :
    List RawReading × List Nat :=
  locIds.foldl (processLocation f days) ([], [])

/-- The value `fetch_sensor_data` returns to its caller: only
`consolidated_df`.  The collected `failed_locations` list is printed and
discarded. -/
def fetch_sensor_data (f : Nat → Nat → FetchOutcome) (locIds days : List Nat) :
    List RawReading :=
  (fetchState f locIds days).1

/-- Rows one retrieval unit contributes. -/
def rowsOf : FetchOutcome → List RawReading
  | .found rows => rows
  | .absent => []
  | .failed => []

/-- Whether one retrieval unit is recorded as failed. -/
def failsOf : FetchOutcome → Bool
  | .found _ => false
  | .absent => true
  | .failed => true

/-- Characterization of the inner day loop: each unit contributes its own rows
and failure record, independently of the others. -/
theorem processLocation_spec (f : Nat → Nat → FetchOutcome) (l : Nat) :
    ∀ (days : List Nat) (acc : List RawReading × List Nat),
      processLocation f days acc l =
        (acc.1 ++ (days.map (fun d => rowsOf (f l d))).flatten,
         acc.2 ++ (days.filter (fun d => failsOf (f l d))).map (fun _ => l))
  | [], acc => by simp [processLocation]
  | d :: ds, acc => by
    unfold processLocation
    rw [List.foldl_cons]
    have ih := processLocation_spec f l ds (processDay acc l (f l d))
    unfold processLocation at ih
    rw [ih]
    cases hf : f l d <;>
      simp [processDay, hf, rowsOf, failsOf, List.filter_cons, List.append_assoc]

/-- Characterization of the outer site loop, generalized over the starting
accumulator. -/
theorem foldl_processLocation_spec (f : Nat → Nat → FetchOutcome) (days : List Nat) :
    ∀ (locIds : List Nat) (acc : List RawReading × List Nat),
      locIds.foldl (processLocation f days) acc =
        (acc.1 ++ (locIds.map
            (fun l => (days.map (fun d => rowsOf (f l d))).flatten)).flatten,
         acc.2 ++ (locIds.map
            (fun l => (days.filter (fun d => failsOf (f l d))).map (fun _ => l))).flatten)
  | [], acc => by simp
  | l :: ls, acc => by
    rw [List.foldl_cons, processLocation_spec f l days acc,
        foldl_processLocation_spec f days ls]
    simp [List.append_assoc]

/-- Claim C5 as stated is false: the failed set is not reported to the caller.
Two runs — one whose only unit lists an archive directory with no matching
object (no failure recorded), one whose only unit has no archive directory at
all (failure recorded) — return the identical value to the caller, although
their failed-identifier sets differ.  The failed set lives only in the
internal loop state (and the log); the function's return value carries no
failure metadata. -/
theorem c5_counterexample :
    fetch_sensor_data (fun _ _ => FetchOutcome.found []) [1] [0]
        = fetch_sensor_data (fun _ _ => FetchOutcome.absent) [1] [0] ∧
    (fetchState (fun _ _ => FetchOutcome.found []) [1] [0]).2
        ≠ (fetchState (fun _ _ => FetchOutcome.absent) [1] [0]).2 := by
  exact ⟨rfl, by decide⟩

/-- Claim C5, amended: a failure or absence of data for one `(site, day)` unit
does not abort the remaining units — the final rows and the final
failed-identifier list are each the concatenation of independent per-unit
contributions — and the failed identifiers are collected in the loop state and
logged; but only the partial results are returned to the caller, without the
failed set. -/
theorem c5_amended_isolation (f : Nat → Nat → FetchOutcome) (locIds days : List Nat) :
    fetch_sensor_data f locIds days
        = (locIds.map (fun l => (days.map (fun d => rowsOf (f l d))).flatten)).flatten ∧
    (fetchState f locIds days).2
        = (locIds.map
            (fun l => (days.filter (fun d => failsOf (f l d))).map (fun _ => l))).flatten := by
  unfold fetch_sensor_data fetchState
  rw [foldl_processLocation_spec f days locIds ([], [])]
  simp

/-! ## Daily weather summary (`weather_tools.py`, `HistoricalWeatherTool._run`) -/

/-- A cell of the weather summary: a numeric value, or the sentinel `"N/A"`. -/
inductive WCell where
  | val (v : ℚ)
  | na
deriving DecidableEq

/-- The `"daily"` section of the archive response: a `time` array of ISO dates
plus one parallel array per requested metric.  A key missing from the JSON is
the empty list, matching `daily_data.get(name, [])`. -/
structure DailyData where
  time : List String
  temperature_2m_mean : List ℚ
  temperature_2m_max : List ℚ
  temperature_2m_min : List ℚ
  precipitation_sum : List ℚ
  wind_speed_10m_mean : List ℚ
  relative_humidity_2m_mean : List ℚ
deriving DecidableEq

/-- One per-day summary dictionary (lines 85–93). -/
structure WeatherRow where
  date : String
  temperature_mean_2m : WCell
  temperature_max_2m : WCell
  temperature_min_2m : WCell
  precipitation_sum : WCell
  wind_speed_10m_mean : WCell
  relative_humidity_2m_mean : WCell
deriving DecidableEq

/-- `arr[i] if i < len(arr) else "N/A"`. -/
def metricAt (arr : List ℚ) (i : Nat) : WCell :=
  if h : i < arr.length then WCell.val (arr.get ⟨i, h⟩) else WCell.na

/-- The `for i in range(len(times))` construction of the summary list. -/
def weather_summary (dd : DailyData) : List WeatherRow :=
  (List.range dd.time.length).map (fun i =>
    { date := dd.time.getD i ""
      temperature_mean_2m := metricAt dd.temperature_2m_mean i
      temperature_max_2m := metricAt dd.temperature_2m_max i
      temperature_min_2m := metricAt dd.temperature_2m_min i
      precipitation_sum := metricAt dd.precipitation_sum i
      wind_speed_10m_mean := metricAt dd.wind_speed_10m_mean i
      relative_humidity_2m_mean := metricAt dd.relative_humidity_2m_mean i })

/-- `HistoricalWeatherTool._run` after the HTTP call: a response without a
`"daily"` section yields the descriptive no-data message (line 72), otherwise
the summary rows. -/
def HistoricalWeatherTool_run (daily : Option DailyData) :
    Except String (List WeatherRow) :=
  match daily with
  | none => Except.error "No daily weather data found"
  | some dd => Except.ok (weather_summary dd)

/-- The placeholder row used to state positional facts with `getD`. -/
def emptyWeatherRow : WeatherRow :=
  { date := ""
    temperature_mean_2m := WCell.na
    temperature_max_2m := WCell.na
    temperature_min_2m := WCell.na
    precipitation_sum := WCell.na
    wind_speed_10m_mean := WCell.na
    relative_humidity_2m_mean := WCell.na }

/-- The six (metric array, row cell) pairs of one summary row. -/
def metricPairs (dd : DailyData) (row : WeatherRow) : List (List ℚ × WCell) :=
  [(dd.temperature_2m_mean, row.temperature_mean_2m),
   (dd.temperature_2m_max, row.temperature_max_2m),
   (dd.temperature_2m_min, row.temperature_min_2m),
   (dd.precipitation_sum, row.precipitation_sum),
   (dd.wind_speed_10m_mean, row.wind_speed_10m_mean),
   (dd.relative_humidity_2m_mean, row.relative_humidity_2m_mean)]

/-- Shortening helper: a metric array shorter than the index yields the
sentinel. -/
theorem metricAt_na (arr : List ℚ) (i : Nat) (h : arr.length ≤ i) :
    metricAt arr i = WCell.na := by
  unfold metricAt
  rw [dif_neg]
  omega

/-- A metric array long enough yields its `i`-th entry. -/
theorem metricAt_val (arr : List ℚ) (i : Nat) (h : i < arr.length) :
    metricAt arr i = WCell.val (arr.get ⟨i, h⟩) :=
  dif_pos h

/-- Claim C8: with the daily section present, the summary has one row per
entry of the time array; in every row, each metric whose parallel array is
shorter than the time array carries the sentinel instead of an out-of-bounds
access, and each metric whose array is long enough carries exactly its `i`-th
entry.  The construction is total: it never raises. -/
theorem c8_weather_rows_safe (dd : DailyData) :
    HistoricalWeatherTool_run (some dd) = Except.ok (weather_summary dd) ∧
    (weather_summary dd).length = dd.time.length ∧
    ∀ i, i < dd.time.length →
      ((weather_summary dd).getD i emptyWeatherRow).date = dd.time.getD i "" ∧
      ∀ p ∈ metricPairs dd ((weather_summary dd).getD i emptyWeatherRow),
        (p.1.length ≤ i → p.2 = WCell.na) ∧
        ∀ h : i < p.1.length, p.2 = WCell.val (p.1.get ⟨i, h⟩) := by
  refine ⟨rfl, by simp [weather_summary], ?_⟩
  intro i hi
  have hrow : (weather_summary dd).getD i emptyWeatherRow =
      { date := dd.time.getD i ""
        temperature_mean_2m := metricAt dd.temperature_2m_mean i
        temperature_max_2m := metricAt dd.temperature_2m_max i
        temperature_min_2m := metricAt dd.temperature_2m_min i
        precipitation_sum := metricAt dd.precipitation_sum i
        wind_speed_10m_mean := metricAt dd.wind_speed_10m_mean i
        relative_humidity_2m_mean := metricAt dd.relative_humidity_2m_mean i } := by
    unfold weather_summary
    rw [List.getD_eq_getElem?_getD, List.getElem?_map, List.getElem?_range hi]
    rfl
  rw [hrow]
  refine ⟨rfl, ?_⟩
  intro p hp
  simp only [metricPairs, List.mem_cons, List.not_mem_nil, or_false] at hp
  rcases hp with h | h | h | h | h | h <;>
    subst h <;>
    exact ⟨fun hle => metricAt_na _ i hle, fun hlt => metricAt_val _ i hlt⟩

/-- Ragged concrete response for the witness: three dates, but only two
`temperature_2m_max` entries. -/
def c8Daily : DailyData :=
  { time := ["2023-01-01", "2023-01-02", "2023-01-03"]
    temperature_2m_mean := [10, 11, 12]
    temperature_2m_max := [15, 16]
    temperature_2m_min := [5, 6, 7]
    precipitation_sum := [0, 1, 2]
    wind_speed_10m_mean := [3, 3, 3]
    relative_humidity_2m_mean := [50, 60, 70] }

/-- Witness for `c8_weather_rows_safe`: the third row exists and its truncated
max-temperature metric is the sentinel. -/
theorem c8_weather_rows_safe_witness :
    (weather_summary c8Daily).length = c8Daily.time.length ∧
    ((weather_summary c8Daily).getD 2 emptyWeatherRow).temperature_max_2m = WCell.na := by
  refine ⟨(c8_weather_rows_safe c8Daily).2.1, ?_⟩
  have hp := ((c8_weather_rows_safe c8Daily).2.2 2 (by decide)).2
    (c8Daily.temperature_2m_max,
     ((weather_summary c8Daily).getD 2 emptyWeatherRow).temperature_max_2m)
    (by simp [metricPairs])
  exact hp.1 (by decide)

/-! ## Input validation (`input_parser_tool.py`, `InputParserTool._run`)
and the inclusive day enumeration used by the analysis pipeline. -/

/-- `pd.date_range(start, end)`: the inclusive day range; empty when
`start > end`, a single day when `start = end`.  Days are abstract ordinals. -/
def date_range (s e : Nat) : List Nat :=
  (List.range (e + 1 - s)).map (fun i => s + i)

/-- Lexicographic comparison of character lists, the semantics of Python's
`<` on strings (code-point order, a proper prefix is smaller). -/
def lexLt : List Char → List Char → Bool
  | [], [] => false
  | [], _ :: _ => true
  | _ :: _, [] => false
  | a :: as, b :: bs => if a < b then true else if b < a then false else lexLt as bs

/-- Python string `<`. -/
def pyLt (a b : String) : Bool := lexLt a.data b.data

/-- Stand-in for the Python dict repr interpolated into the success message;
no claim depends on this text. -/
def input_summary (locations : List String) (start_date end_date : String)
    (aq_parameters : List String) : String :=
  String.intercalate ", " locations ++ "; " ++ start_date ++ "; " ++ end_date
    ++ "; " ++ String.intercalate ", " aq_parameters

/-- `InputParserTool._run` (lines 34–63): the three validation checks in
order, then the success summary.  Python compares the date strings with `>=`,
i.e. lexicographically. -/
def InputParserTool_run (locations : List String) (start_date end_date : String)
    (aq_parameters : List String) : String :=
  if locations.isEmpty then
    "Error: At least one location must be specified."
  else if aq_parameters.isEmpty then
    "Error: At least one air quality parameter must be specified."
  else if ¬ pyLt start_date end_date then
    "Error: The start date must be before the end date."
  else
    "Validated Input: " ++ input_summary locations start_date end_date aq_parameters

/-- Claim C10 as stated is false for inputs failing an earlier check: with an
empty location list and `start_date ≥ end_date`, the parser returns the
missing-location error, not the date error. -/
theorem c10_counterexample :
    ¬ pyLt "2025-01-02" "2025-01-01" ∧
    InputParserTool_run [] "2025-01-02" "2025-01-01" ["pm25"]
        = "Error: At least one location must be specified." ∧
    InputParserTool_run [] "2025-01-02" "2025-01-01" ["pm25"]
        ≠ "Error: The start date must be before the end date." := by
  refine ⟨by decide, rfl, by decide⟩

/-- Claim C10, amended: for every input passing the earlier non-emptiness
checks, `start_date ≥ end_date` lexicographically — including
`start_date = end_date` — returns exactly the date error, even though the
pipeline's inclusive day enumeration accepts a single-day range:
`date_range d d` is exactly one day. -/
theorem c10_amended_date_check (locations : List String) (start_date end_date : String)
    (aq_parameters : List String) (d : Nat)
    (hl : locations ≠ []) (hp : aq_parameters ≠ []) (hd : ¬ pyLt start_date end_date) :
    InputParserTool_run locations start_date end_date aq_parameters
        = "Error: The start date must be before the end date." ∧
    date_range d d = [d] := by
  constructor
  · have h1 : ¬ (locations.isEmpty = true) := by simpa using hl
    have h2 : ¬ (aq_parameters.isEmpty = true) := by simpa using hp
    unfold InputParserTool_run
    rw [if_neg h1, if_neg h2, if_pos hd]
  · unfold date_range
    simp [List.range_succ]

/-- Witness for `c10_amended_date_check` at the single-day case
`start_date = end_date`. -/
theorem c10_amended_date_check_witness :
    InputParserTool_run ["New Delhi, India"] "2023-01-01" "2023-01-01" ["pm25"]
        = "Error: The start date must be before the end date." ∧
    date_range 5 5 = [5] :=
  c10_amended_date_check ["New Delhi, India"] "2023-01-01" "2023-01-01" ["pm25"] 5
    (by decide) (by decide) (by decide)

end AirAware
